import Mathlib

/-!
Stellar Guestbook client (`frontend/src/App.jsx`).

A shallow embedding of the three asynchronous actions of the `App` component
(`loadMessages`, `connectWallet`, `addMessage`) together with the two render
gates of the returned view (the Connect button and the disabled Add button).

* The React state is the record `State`; a setter is a field update.
* Everything behind `@stellar/freighter-api` and `@stellar/stellar-sdk` is an
  `Env`: each network or wallet call takes the outside world `W` and returns
  either a thrown error or a value, together with the next world.
* A run produces the list of observable events in program order: external
  calls (with whether they returned or threw), setter calls, `alert` and
  `console.error`.
* The page is a step machine over these actions cut at their `await`s: the
  user types and clicks through the rendered view while suspended actions are
  resumed in any order.
-/

namespace Guestbook

/-! ## JavaScript values -/

/-- Thrown values (the payload of a rejected promise or a `throw`). -/
abbrev Err := String

/-- Primitive JavaScript values that the wallet bridge can hand back. -/
inductive Prim where
  | undefined
  | null
  | bool (b : Bool)
  | str (s : String)
  deriving DecidableEq, Repr

/-- JavaScript values: primitives, or an object with primitive fields. -/
inductive JsVal where
  | prim (p : Prim)
  | obj (fields : List (String × Prim))
  deriving DecidableEq, Repr

/-- JavaScript truthiness (`!v` is its negation). -/
def truthy : JsVal → Bool
  | .prim .undefined => false
  | .prim .null => false
  | .prim (.bool b) => b
  | .prim (.str s) => decide (s ≠ "")
  | .obj _ => true

/-- The member access `v.address`: a `TypeError` on `undefined` and `null`,
`undefined` on the other primitives (neither a boolean nor a string has a
member of that name), the field or `undefined` on an object. -/
def propAddress : JsVal → Except Err JsVal
  | .prim .undefined => .error "TypeError"
  | .prim .null => .error "TypeError"
  | .prim (.bool _) => .ok (.prim .undefined)
  | .prim (.str _) => .ok (.prim .undefined)
  | .obj fields =>
    match fields.lookup "address" with
    | some p => .ok (.prim p)
    | none => .ok (.prim .undefined)

/-- The operator `a || b`. -/
def jsOr (a b : JsVal) : JsVal := if truthy a then a else b

/-! ## Data model -/

/-- An account as returned by `server.getAccount`. -/
structure Account where
  accountId : String
  sequence : Nat
  deriving DecidableEq, Repr

/-- The target type handed to `nativeToScVal` in its `type` option. -/
inductive ScType where
  | address
  | string
  deriving DecidableEq, Repr

/-- A typed contract argument. -/
inductive ScVal where
  | address (a : String)
  | string (s : String)
  deriving DecidableEq, Repr

/-- One contract invocation, as built by `contract.call(name, ...args)`. -/
structure Operation where
  contractId : String
  function : String
  args : List ScVal
  deriving DecidableEq, Repr

/-- The state of a `TransactionBuilder` before `.build()`. -/
structure TransactionBuilder where
  source : Account
  fee : String
  networkPassphrase : String
  operations : List Operation
  timeout : Option Nat
  deriving DecidableEq, Repr

/-- A transaction envelope. -/
structure Transaction where
  source : Account
  fee : String
  networkPassphrase : String
  operations : List Operation
  timeout : Nat
  resources : Option Nat
  signatures : List String
  deriving DecidableEq, Repr

/-- One displayed guestbook entry. -/
structure Entry where
  user : String
  content : String
  deriving DecidableEq, Repr

/-- The reply of `server.simulateTransaction`. -/
structure SimulationResult where
  retval : Option (List Entry)
  resources : Nat
  deriving DecidableEq, Repr

/-- The reply of `server.sendTransaction`. -/
structure SubmissionResult where
  status : String
  hash : String
  deriving DecidableEq, Repr

/-- The `useState` cells of `App`. -/
structure State where
  walletAddress : JsVal
  message : String
  messages : List Entry
  totalMessages : Nat
  loading : Bool
  freighterInstalled : JsVal
  deriving DecidableEq, Repr

/-- The initial values passed to `useState`. -/
def State.init : State :=
  { walletAddress := .prim (.str ""), message := "", messages := [],
    totalMessages := 0, loading := false, freighterInstalled := .prim (.bool false) }

/-! ## Configuration constants of the module -/

def CONTRACT_ID : String := "CAGUUCTNZRAYWO2VHD3VY7LH5MGB2BXKM2QQCD3Q6HVWSPOIGK3GF35B"

def RPC_URL : String := "https://soroban-testnet.stellar.org"

/-- The placeholder source account of the read path (`dummy`). -/
def dummy : String := "GAAAAAAAAAAAAAAAAAAAAAAAAAAAAAAAAAAAAAAAAAAAAAAAAAAAAWHF"

/-- The fixed list written by the read path. -/
def demoMessages : List Entry := [{ user := "GABC...XYZ", content := "Hello from Soroban!" }]

/-! ## The outside world -/

/-- The wallet bridge, the RPC server and the SDK helpers, over a world `W`.
`BASE_FEE` and `TESTNET` are the SDK constants the module reads. -/
structure Env (W : Type) where
  BASE_FEE : String
  TESTNET : String
  isConnected : W → Except Err JsVal × W
  requestAccess : W → Except Err JsVal × W
  getAddress : W → Except Err JsVal × W
  signTransaction : String → String → W → Except Err JsVal × W
  getAccount : JsVal → W → Except Err Account × W
  simulateTransaction : Transaction → W → Except Err SimulationResult × W
  prepareTransaction : Transaction → W → Except Err Transaction × W
  sendTransaction : Transaction → W → Except Err SubmissionResult × W
  nativeToScVal : JsVal → ScType → Except Err ScVal
  build : TransactionBuilder → Except Err Transaction
  toXDR : Transaction → String
  fromXDR : JsVal → String → Except Err Transaction

/-- The module constant `networkPassphrase = StellarSdk.Networks.TESTNET`. -/
def networkPassphrase {W : Type} (env : Env W) : String := env.TESTNET

/-- The external calls that cross the process boundary. -/
inductive Call where
  | isConnected
  | requestAccess
  | getAddress
  | signTransaction (xdr : String) (networkPassphrase : String)
  | getAccount (id : JsVal)
  | simulateTransaction (tx : Transaction)
  | prepareTransaction (tx : Transaction)
  | sendTransaction (tx : Transaction)
  deriving DecidableEq, Repr

/-- Observable events of a run, in program order. `call c ok` is the call `c`
being issued, `ok` telling whether it returned (`true`) or threw (`false`). -/
inductive Event where
  | call (c : Call) (ok : Bool)
  | setWalletAddress (v : JsVal)
  | setMessage (s : String)
  | setMessages (l : List Entry)
  | setTotalMessages (n : Nat)
  | setLoading (b : Bool)
  | setFreighterInstalled (v : JsVal)
  | alert (msg : String)
  | consoleError (tag : String) (e : Err)
  deriving DecidableEq, Repr

/-- Whether an `Except` is a normal return. -/
def returned {α : Type} : Except Err α → Bool
  | .ok _ => true
  | .error _ => false

/-- The outcome of running an action until its promise settles.
`escaped` is the rejection reason when an exception leaves the action.
`pendingRead` is the reply of the `getAccount` call of a `loadMessages()` that
was started without `await` and is still suspended when the action settles. -/
structure Run (W : Type) where
  state : State
  world : W
  trace : List Event
  escaped : Option Err
  pendingRead : Option (Except Err Account)

/-! ## `loadMessages` -/

/-- The `try` block of `loadMessages` from the point where
`await server.getAccount(dummy)` resumes with reply `r`. -/
def loadMessagesTry {W : Type} (env : Env W) (st : State) (r : Except Err Account) (w : W) :
    Run W :=
  match r with
  | .error e => { state := st, world := w, trace := [], escaped := some e, pendingRead := none }
  | .ok sourceAccount =>
    let builder : TransactionBuilder :=
      { source := sourceAccount, fee := env.BASE_FEE,
        networkPassphrase := networkPassphrase env,
        operations := [{ contractId := CONTRACT_ID, function := "get_messages", args := [] }],
        timeout := some 30 }
    match env.build builder with
    | .error e => { state := st, world := w, trace := [], escaped := some e, pendingRead := none }
    | .ok tx =>
      match env.simulateTransaction tx w with
      | (.error e, w1) =>
        { state := st, world := w1, trace := [.call (.simulateTransaction tx) false],
          escaped := some e, pendingRead := none }
      | (.ok _, w1) =>
        { state := { st with messages := demoMessages, totalMessages := 1 }, world := w1,
          trace := [.call (.simulateTransaction tx) true, .setMessages demoMessages,
                    .setTotalMessages 1],
          escaped := none, pendingRead := none }

/-- The rest of `loadMessages` after its first suspension: the `try` block
and the `catch` clause, which logs and swallows the error. -/
def loadMessagesResume {W : Type} (env : Env W) (st : State) (r : Except Err Account) (w : W) :
    Run W :=
  let body := loadMessagesTry env st r w
  match body.escaped with
  | some e =>
    { body with trace := body.trace ++ [.consoleError "Read error:" e], escaped := none }
  | none => body

/-- The action `loadMessages`, run to completion. -/
def loadMessages {W : Type} (env : Env W) (st : State) (w : W) : Run W :=
  match env.getAccount (.prim (.str dummy)) w with
  | (r, w1) =>
    let rest := loadMessagesResume env st r w1
    { rest with trace := .call (.getAccount (.prim (.str dummy))) (returned r) :: rest.trace }

/-! ## `connectWallet` -/

/-- The action `connectWallet`. It has no `try`, so a throwing call rejects
the returned promise. -/
def connectWallet {W : Type} (env : Env W) (st : State) (w : W) : Run W :=
  match env.isConnected w with
  | (.error e, w1) =>
    { state := st, world := w1, trace := [.call .isConnected false], escaped := some e,
      pendingRead := none }
  | (.ok installed, w1) =>
    if !truthy installed then
      { state := st, world := w1,
        trace := [.call .isConnected true, .alert "Install Freighter wallet first"],
        escaped := none, pendingRead := none }
    else
      match env.requestAccess w1 with
      | (.error e, w2) =>
        { state := st, world := w2,
          trace := [.call .isConnected true, .call .requestAccess false],
          escaped := some e, pendingRead := none }
      | (.ok access, w2) =>
        if !truthy access then
          { state := st, world := w2,
            trace := [.call .isConnected true, .call .requestAccess true],
            escaped := none, pendingRead := none }
        else
          match env.getAddress w2 with
          | (.error e, w3) =>
            { state := st, world := w3,
              trace := [.call .isConnected true, .call .requestAccess true,
                        .call .getAddress false],
              escaped := some e, pendingRead := none }
          | (.ok result, w3) =>
            match propAddress result with
            | .error e =>
              { state := st, world := w3,
                trace := [.call .isConnected true, .call .requestAccess true,
                          .call .getAddress true],
                escaped := some e, pendingRead := none }
            | .ok address =>
              let v := jsOr address result
              { state := { st with walletAddress := v }, world := w3,
                trace := [.call .isConnected true, .call .requestAccess true,
                          .call .getAddress true, .setWalletAddress v],
                escaped := none, pendingRead := none }

/-! ## `addMessage` -/

/-- The `try` block of `addMessage`, entered with store `st` (after
`setLoading(true)`); `walletAddress` and `message` are the values captured by
the closure. The last statement `loadMessages()` is not awaited: it runs up
to its first `await` (the `getAccount(dummy)` call is issued) and is left
suspended in `pendingRead`. -/
def addMessageTry {W : Type} (env : Env W) (walletAddress : JsVal) (message : String)
    (st : State) (w : W) : Run W :=
  match env.getAccount walletAddress w with
  | (.error e, w1) =>
    { state := st, world := w1, trace := [.call (.getAccount walletAddress) false],
      escaped := some e, pendingRead := none }
  | (.ok account, w1) =>
    let t1 : List Event := [.call (.getAccount walletAddress) true]
    match env.nativeToScVal walletAddress .address with
    | .error e => { state := st, world := w1, trace := t1, escaped := some e, pendingRead := none }
    | .ok author =>
      match env.nativeToScVal (.prim (.str message)) .string with
      | .error e =>
        { state := st, world := w1, trace := t1, escaped := some e, pendingRead := none }
      | .ok text =>
        let builder : TransactionBuilder :=
          { source := account, fee := env.BASE_FEE,
            networkPassphrase := networkPassphrase env,
            operations :=
              [{ contractId := CONTRACT_ID, function := "add_message", args := [author, text] }],
            timeout := some 180 }
        match env.build builder with
        | .error e =>
          { state := st, world := w1, trace := t1, escaped := some e, pendingRead := none }
        | .ok tx =>
          match env.prepareTransaction tx w1 with
          | (.error e, w2) =>
            { state := st, world := w2, trace := t1 ++ [.call (.prepareTransaction tx) false],
              escaped := some e, pendingRead := none }
          | (.ok prepared, w2) =>
            let t2 := t1 ++ [.call (.prepareTransaction tx) true]
            match env.signTransaction (env.toXDR prepared) (networkPassphrase env) w2 with
            | (.error e, w3) =>
              { state := st, world := w3,
                trace := t2 ++ [.call (.signTransaction (env.toXDR prepared)
                                  (networkPassphrase env)) false],
                escaped := some e, pendingRead := none }
            | (.ok signedXDR, w3) =>
              let t3 := t2 ++ [.call (.signTransaction (env.toXDR prepared)
                                  (networkPassphrase env)) true]
              match env.fromXDR signedXDR (networkPassphrase env) with
              | .error e =>
                { state := st, world := w3, trace := t3, escaped := some e, pendingRead := none }
              | .ok signedTx =>
                match env.sendTransaction signedTx w3 with
                | (.error e, w4) =>
                  { state := st, world := w4,
                    trace := t3 ++ [.call (.sendTransaction signedTx) false],
                    escaped := some e, pendingRead := none }
                | (.ok _, w4) =>
                  match env.getAccount (.prim (.str dummy)) w4 with
                  | (r, w5) =>
                    { state := { st with message := "" }, world := w5,
                      trace := t3 ++ [.call (.sendTransaction signedTx) true, .setMessage "",
                                      .call (.getAccount (.prim (.str dummy))) (returned r)],
                      escaped := none, pendingRead := some r }

/-- The action `addMessage`, run until its promise settles: the guard,
`setLoading(true)`, the `try` block, the `catch` clause (log and swallow) and
the `finally` clause (`setLoading(false)`). -/
def addMessage {W : Type} (env : Env W) (st : State) (w : W) : Run W :=
  if !truthy st.walletAddress || decide (st.message = "") then
    { state := st, world := w, trace := [], escaped := none, pendingRead := none }
  else
    let body := addMessageTry env st.walletAddress st.message { st with loading := true } w
    let caught : List Event :=
      match body.escaped with
      | some e => [.consoleError "Write error:" e]
      | none => []
    { state := { body.state with loading := false }, world := body.world,
      trace := .setLoading true :: (body.trace ++ caught ++ [.setLoading false]),
      escaped := none, pendingRead := body.pendingRead }

/-- Lets a suspended read path run to completion after the action that
started it has settled. -/
def settle {W : Type} (env : Env W) (r : Run W) : Run W :=
  match r.pendingRead with
  | none => r
  | some reply =>
    let rest := loadMessagesResume env r.state reply r.world
    { rest with trace := r.trace ++ rest.trace, escaped := r.escaped }

/-- The mount effect `init`: the presence check, `setFreighterInstalled`, and
a `loadMessages()` that is started without `await`. It has no `try`. -/
def init {W : Type} (env : Env W) (st : State) (w : W) : Run W :=
  match env.isConnected w with
  | (.error e, w1) =>
    { state := st, world := w1, trace := [.call .isConnected false], escaped := some e,
      pendingRead := none }
  | (.ok installed, w1) =>
    match env.getAccount (.prim (.str dummy)) w1 with
    | (r, w2) =>
      { state := { st with freighterInstalled := installed }, world := w2,
        trace := [.call .isConnected true, .setFreighterInstalled installed,
                  .call (.getAccount (.prim (.str dummy))) (returned r)],
        escaped := none, pendingRead := some r }

/-! ## The rendered view -/

/-- What the JSX returned by `App` offers to the user in a given state. -/
structure View where
  connectButton : Bool
  addDisabled : Bool
  totalShown : Nat
  entries : List Entry
  deriving DecidableEq, Repr

/-- The render: the Connect button exists only while `!walletAddress`; the
Add button carries `disabled={loading}`. -/
def render (st : State) : View :=
  { connectButton := !truthy st.walletAddress, addDisabled := st.loading,
    totalShown := st.totalMessages, entries := st.messages }

/-! ## The page: interleaved runs

The actions are `async` functions: each one runs up to its next `await`,
where the call has been issued, and is resumed later with the reply. Between
two such segments the user can type or click, and other suspended actions can
be resumed. -/

/-- An action instance suspended at an `await`, holding the reply it will be
resumed with. The write task started by a click carries the `walletAddress`
and `message` captured by the closure of `addMessage`. -/
inductive Task where
  | initPresence (r : Except Err JsVal)
  | readAccount (r : Except Err Account)
  | readSimulate (r : Except Err SimulationResult)
  | connectPresence (r : Except Err JsVal)
  | connectAccess (r : Except Err JsVal)
  | connectAddress (r : Except Err JsVal)
  | writeAccount (walletAddress : JsVal) (message : String) (r : Except Err Account)
  | writePrepare (r : Except Err Transaction)
  | writeSign (r : Except Err JsVal)
  | writeSend (r : Except Err SubmissionResult)

/-- The suspended instances of `addMessage`. -/
def Task.isWrite : Task → Bool
  | .writeAccount _ _ _ => true
  | .writePrepare _ => true
  | .writeSign _ => true
  | .writeSend _ => true
  | _ => false

/-- The suspended instances of `connectWallet`. -/
def Task.isConnect : Task → Bool
  | .connectPresence _ => true
  | .connectAccess _ => true
  | .connectAddress _ => true
  | _ => false

/-- The mounted page: the store, the outside world, the suspended actions,
the events so far and the rejections nobody handled. -/
structure Page (W : Type) where
  store : State
  world : W
  tasks : List Task
  trace : List Event
  rejections : List Err

/-- What can happen next on the page. -/
inductive Action where
  | type (s : String)
  | clickConnect
  | clickAdd
  | resume (i : Nat)
  deriving DecidableEq, Repr

/-- The synchronous start of `loadMessages()`: `getAccount(dummy)` is issued
and the action suspends. -/
def startRead {W : Type} (env : Env W) (p : Page W) : Page W :=
  match env.getAccount (.prim (.str dummy)) p.world with
  | (r, w1) =>
    { p with world := w1,
             trace := p.trace ++ [.call (.getAccount (.prim (.str dummy))) (returned r)],
             tasks := p.tasks ++ [.readAccount r] }

/-- The `catch` clause of `loadMessages`. -/
def readCatch {W : Type} (p : Page W) (e : Err) : Page W :=
  { p with trace := p.trace ++ [.consoleError "Read error:" e] }

/-- The `catch` and `finally` clauses of `addMessage`. -/
def writeCatch {W : Type} (p : Page W) (e : Err) : Page W :=
  { p with store := { p.store with loading := false },
           trace := p.trace ++ [.consoleError "Write error:" e, .setLoading false] }

/-- An exception leaving an action that has no `try`. -/
def reject {W : Type} (p : Page W) (e : Err) : Page W :=
  { p with rejections := p.rejections ++ [e] }

/-- Resumes the suspended action `t` (already taken off the task list of `p`)
and runs it to its next `await` or to its end. -/
def resumeTask {W : Type} (env : Env W) (p : Page W) : Task → Page W
  | .initPresence r =>
    match r with
    | .error e => reject p e
    | .ok installed =>
      startRead env
        { p with store := { p.store with freighterInstalled := installed },
                 trace := p.trace ++ [.setFreighterInstalled installed] }
  | .readAccount r =>
    match r with
    | .error e => readCatch p e
    | .ok sourceAccount =>
      match env.build
          { source := sourceAccount, fee := env.BASE_FEE,
            networkPassphrase := networkPassphrase env,
            operations := [{ contractId := CONTRACT_ID, function := "get_messages", args := [] }],
            timeout := some 30 } with
      | .error e => readCatch p e
      | .ok tx =>
        match env.simulateTransaction tx p.world with
        | (r2, w1) =>
          { p with world := w1,
                   trace := p.trace ++ [.call (.simulateTransaction tx) (returned r2)],
                   tasks := p.tasks ++ [.readSimulate r2] }
  | .readSimulate r =>
    match r with
    | .error e => readCatch p e
    | .ok _ =>
      { p with store := { p.store with messages := demoMessages, totalMessages := 1 },
               trace := p.trace ++ [.setMessages demoMessages, .setTotalMessages 1] }
  | .connectPresence r =>
    match r with
    | .error e => reject p e
    | .ok installed =>
      if !truthy installed then
        { p with trace := p.trace ++ [.alert "Install Freighter wallet first"] }
      else
        match env.requestAccess p.world with
        | (r2, w1) =>
          { p with world := w1, trace := p.trace ++ [.call .requestAccess (returned r2)],
                   tasks := p.tasks ++ [.connectAccess r2] }
  | .connectAccess r =>
    match r with
    | .error e => reject p e
    | .ok access =>
      if !truthy access then p
      else
        match env.getAddress p.world with
        | (r2, w1) =>
          { p with world := w1, trace := p.trace ++ [.call .getAddress (returned r2)],
                   tasks := p.tasks ++ [.connectAddress r2] }
  | .connectAddress r =>
    match r with
    | .error e => reject p e
    | .ok result =>
      match propAddress result with
      | .error e => reject p e
      | .ok address =>
        { p with store := { p.store with walletAddress := jsOr address result },
                 trace := p.trace ++ [.setWalletAddress (jsOr address result)] }
  | .writeAccount walletAddress message r =>
    match r with
    | .error e => writeCatch p e
    | .ok account =>
      match env.nativeToScVal walletAddress .address with
      | .error e => writeCatch p e
      | .ok author =>
        match env.nativeToScVal (.prim (.str message)) .string with
        | .error e => writeCatch p e
        | .ok text =>
          match env.build
              { source := account, fee := env.BASE_FEE,
                networkPassphrase := networkPassphrase env,
                operations :=
                  [{ contractId := CONTRACT_ID, function := "add_message",
                     args := [author, text] }],
                timeout := some 180 } with
          | .error e => writeCatch p e
          | .ok tx =>
            match env.prepareTransaction tx p.world with
            | (r2, w1) =>
              { p with world := w1,
                       trace := p.trace ++ [.call (.prepareTransaction tx) (returned r2)],
                       tasks := p.tasks ++ [.writePrepare r2] }
  | .writePrepare r =>
    match r with
    | .error e => writeCatch p e
    | .ok prepared =>
      match env.signTransaction (env.toXDR prepared) (networkPassphrase env) p.world with
      | (r2, w1) =>
        { p with world := w1,
                 trace := p.trace ++ [.call (.signTransaction (env.toXDR prepared)
                            (networkPassphrase env)) (returned r2)],
                 tasks := p.tasks ++ [.writeSign r2] }
  | .writeSign r =>
    match r with
    | .error e => writeCatch p e
    | .ok signedXDR =>
      match env.fromXDR signedXDR (networkPassphrase env) with
      | .error e => writeCatch p e
      | .ok signedTx =>
        match env.sendTransaction signedTx p.world with
        | (r2, w1) =>
          { p with world := w1,
                   trace := p.trace ++ [.call (.sendTransaction signedTx) (returned r2)],
                   tasks := p.tasks ++ [.writeSend r2] }
  | .writeSend r =>
    match r with
    | .error e => writeCatch p e
    | .ok _ =>
      match env.getAccount (.prim (.str dummy)) p.world with
      | (r2, w1) =>
        { p with store := { p.store with message := "", loading := false }, world := w1,
                 trace := p.trace ++ [.setMessage "",
                            .call (.getAccount (.prim (.str dummy))) (returned r2),
                            .setLoading false],
                 tasks := p.tasks ++ [.readAccount r2] }

/-- One step of the page. A click reaches its handler only through the
rendered view: Connect Wallet exists only while `!walletAddress`, and Add
Message fires no `onClick` while `disabled={loading}`. -/
def step {W : Type} (env : Env W) (p : Page W) : Action → Page W
  | .type s =>
    { p with store := { p.store with message := s }, trace := p.trace ++ [.setMessage s] }
  | .clickConnect =>
    if (render p.store).connectButton then
      match env.isConnected p.world with
      | (r, w1) =>
        { p with world := w1, trace := p.trace ++ [.call .isConnected (returned r)],
                 tasks := p.tasks ++ [.connectPresence r] }
    else p
  | .clickAdd =>
    if (render p.store).addDisabled then p
    else if !truthy p.store.walletAddress || decide (p.store.message = "") then p
    else
      match env.getAccount p.store.walletAddress p.world with
      | (r, w1) =>
        { p with store := { p.store with loading := true }, world := w1,
                 trace := p.trace ++ [.setLoading true,
                            .call (.getAccount p.store.walletAddress) (returned r)],
                 tasks := p.tasks ++ [.writeAccount p.store.walletAddress p.store.message r] }
  | .resume i =>
    match p.tasks[i]? with
    | none => p
    | some t => resumeTask env { p with tasks := p.tasks.eraseIdx i } t

/-- The page after a sequence of steps. -/
def run {W : Type} (env : Env W) (p : Page W) (acts : List Action) : Page W :=
  acts.foldl (step env) p

/-- The page right after mounting: the initial store, and the effect `init`
suspended at `await isConnected()`. -/
def start {W : Type} (env : Env W) (w : W) : Page W :=
  match env.isConnected w with
  | (r, w1) =>
    { store := State.init, world := w1, tasks := [.initPresence r],
      trace := [.call .isConnected (returned r)], rejections := [] }

/-- The number of `addMessage` instances in flight. -/
def writesInFlight {W : Type} (p : Page W) : Nat := p.tasks.countP Task.isWrite

/-- The flag `loading` is up exactly while one `addMessage` is in flight, and
no second one ever is. -/
def WriteInv {W : Type} (p : Page W) : Prop :=
  (writesInFlight p = 0 ∧ p.store.loading = false) ∨
    (writesInFlight p = 1 ∧ p.store.loading = true)

/-- The presence check returns a falsy value. -/
def presenceFalsy {W : Type} (env : Env W) (w : W) : Prop :=
  ∃ v w1, env.isConnected w = (.ok v, w1) ∧ truthy v = false

/-- The presence check passes and the permission request returns a falsy
value. -/
def accessFalsy {W : Type} (env : Env W) (w : W) : Prop :=
  ∃ v w1 a w2, env.isConnected w = (.ok v, w1) ∧ truthy v = true ∧
    env.requestAccess w1 = (.ok a, w2) ∧ truthy a = false

/-! ## Concrete environments -/

/-- A sample account identity. -/
def alice : String := "GALICE"

/-- An envelope parsed from a signed XDR string. -/
def sampleSigned (xdr : String) (pp : String) : Transaction :=
  { source := { accountId := alice, sequence := 8 }, fee := "100", networkPassphrase := pp,
    operations := [], timeout := 180, resources := some 1, signatures := [xdr] }

/-- An environment over a call counter in which every call succeeds. -/
def envOk : Env Nat :=
  { BASE_FEE := "100"
    TESTNET := "Test SDF Network ; September 2015"
    isConnected := fun w => (.ok (.prim (.bool true)), w + 1)
    requestAccess := fun w => (.ok (.obj [("address", .str alice)]), w + 1)
    getAddress := fun w => (.ok (.obj [("address", .str alice)]), w + 1)
    signTransaction := fun xdr _ w => (.ok (.prim (.str (xdr ++ ":signed"))), w + 1)
    getAccount := fun id w =>
      match id with
      | .prim (.str s) => (.ok { accountId := s, sequence := 7 }, w + 1)
      | _ => (.error "bad account id", w + 1)
    simulateTransaction := fun _ w => (.ok { retval := none, resources := 1 }, w + 1)
    prepareTransaction := fun tx w => (.ok { tx with resources := some 1 }, w + 1)
    sendTransaction := fun _ w => (.ok { status := "PENDING", hash := "h" }, w + 1)
    nativeToScVal := fun v t =>
      match v, t with
      | .prim (.str s), .address => .ok (.address s)
      | .prim (.str s), .string => .ok (.string s)
      | _, _ => .error "bad value"
    build := fun b =>
      match b.timeout with
      | some t =>
        .ok { source := { b.source with sequence := b.source.sequence + 1 }, fee := b.fee,
              networkPassphrase := b.networkPassphrase, operations := b.operations,
              timeout := t, resources := none, signatures := [] }
      | none => .error "TimeBounds has to be set"
    toXDR := fun tx => tx.source.accountId
    fromXDR := fun v pp =>
      match v with
      | .prim (.str s) => .ok (sampleSigned s pp)
      | _ => .error "not an XDR string" }

/-- The user rejects the signature request. -/
def envSignRejected : Env Nat :=
  { envOk with signTransaction := fun _ _ w => (.error "User declined access", w + 1) }

/-- The simulation behind `prepareTransaction` reverts. -/
def envPrepareReverts : Env Nat :=
  { envOk with prepareTransaction := fun _ w => (.error "simulation failed", w + 1) }

/-- The RPC server is unreachable for simulation. -/
def envSimulateFails : Env Nat :=
  { envOk with simulateTransaction := fun _ w => (.error "network error", w + 1) }

/-- A connected session with a draft message and a write not in flight. -/
def stReady : State :=
  { walletAddress := .prim (.str alice), message := "hello", messages := [],
    totalMessages := 0, loading := false, freighterInstalled := .prim (.bool true) }

/-- The envelope `envOk.build` returns for the draft of `stReady`. -/
def sampleAddTx : Transaction :=
  { source := { accountId := alice, sequence := 8 }, fee := "100",
    networkPassphrase := "Test SDF Network ; September 2015",
    operations := [{ contractId := CONTRACT_ID, function := "add_message",
                     args := [.address alice, .string "hello"] }],
    timeout := 180, resources := none, signatures := [] }

/-- The user switches account in the wallet after the sixth external call:
`getAddress` hands back another identity from then on. -/
def envTwoAccounts : Env Nat :=
  { envOk with
    getAddress := fun w =>
      (.ok (.obj [("address", .str (if w < 6 then alice else "GBOB"))]), w + 1) }

/-- The bridge is unreachable: the presence check throws. -/
def envBridgeDown : Env Nat :=
  { envOk with isConnected := fun w => (.error "Freighter is not reachable", w + 1) }

/-- The user declines the permission request and the bridge throws. -/
def envAccessThrows : Env Nat :=
  { envOk with requestAccess := fun w => (.error "User declined access", w + 1) }

/-- The address retrieval throws. -/
def envAddressThrows : Env Nat :=
  { envOk with getAddress := fun w => (.error "Unable to load address", w + 1) }

/-- Mount, connect as `alice`, type a draft and click Add Message once. -/
def actsWriteStarted : List Action :=
  [.clickConnect, .resume 1, .resume 1, .resume 1, .type "hello", .clickAdd]

/-- Two clicks on Connect Wallet before the first run has stored an address,
then the first run resumed to its end while the second still waits for the
reply of its presence check. -/
def actsFirstConnected : List Action :=
  [.clickConnect, .clickConnect, .resume 1, .resume 2, .resume 2]

/-- Two clicks on Connect Wallet, both runs resumed up to their permission
request, then the first run resumed to its end. -/
def actsBothPrompted : List Action :=
  [.clickConnect, .clickConnect, .resume 1, .resume 1, .resume 1, .resume 2]

/-- The user declines the permission request; the bridge reports it as an
empty identity. -/
def envAccessDeclined : Env Nat :=
  { envOk with requestAccess := fun w => (.ok (.prim (.str "")), w + 1) }

/-- The extension is missing: the presence check reports `false`. -/
def envNotInstalled : Env Nat :=
  { envOk with isConnected := fun w => (.ok (.prim (.bool false)), w + 1) }

/-- The wallet replies to `getAddress` with an empty address and an error
text. -/
def envEmptyAddress : Env Nat :=
  { envOk with
    getAddress := fun w =>
      (.ok (.obj [("address", .str ""), ("error", .str "Unable to load address")]), w + 1) }

/-- A session that already displays one earlier entry. -/
def stShown : State :=
  { stReady with messages := [{ user := "GOLD", content := "earlier" }], totalMessages := 1 }

/-- The envelope `envOk.build` returns for the read path. -/
def sampleReadTx : Transaction :=
  { source := { accountId := dummy, sequence := 8 }, fee := "100",
    networkPassphrase := "Test SDF Network ; September 2015",
    operations := [{ contractId := CONTRACT_ID, function := "get_messages", args := [] }],
    timeout := 30, resources := none, signatures := [] }

/-! ## Write path: short-circuiting -/

/-- The trace of a guarded-in `addMessage` run around its `try` block. -/
theorem addMessage_trace {W : Type} (env : Env W) (st : State) (w : W)
    (hw : truthy st.walletAddress = true) (hm : st.message ≠ "") :
    (addMessage env st w).trace =
      Event.setLoading true ::
        ((addMessageTry env st.walletAddress st.message { st with loading := true } w).trace ++
          (match (addMessageTry env st.walletAddress st.message
              { st with loading := true } w).escaped with
            | some e => [Event.consoleError "Write error:" e]
            | none => []) ++ [Event.setLoading false]) := by
  simp [addMessage, hw, hm]

/-- The external calls of a guarded-in `addMessage` run are those of its
`try` block. -/
theorem addMessage_call_mem {W : Type} (env : Env W) (st : State) (w : W)
    (hw : truthy st.walletAddress = true) (hm : st.message ≠ "") (c : Call) (ok : Bool) :
    Event.call c ok ∈ (addMessage env st w).trace ↔
      Event.call c ok ∈
        (addMessageTry env st.walletAddress st.message { st with loading := true } w).trace := by
  rw [addMessage_trace env st w hw hm]
  cases (addMessageTry env st.walletAddress st.message { st with loading := true } w).escaped <;>
    simp

/-- In the `try` block of `addMessage`, a throwing `signTransaction` call
excludes any `sendTransaction` call. -/
theorem addMessageTry_sign_failure_no_send {W : Type} (env : Env W) (wa : JsVal) (m : String)
    (st : State) (w : W) (xdr pp : String)
    (hfail : Event.call (.signTransaction xdr pp) false ∈ (addMessageTry env wa m st w).trace) :
    ∀ tx ok, Event.call (.sendTransaction tx) ok ∉ (addMessageTry env wa m st w).trace := by
  intro tx ok
  revert hfail
  unfold addMessageTry
  dsimp only
  repeat' split
  all_goals simp

/-- In the `try` block of `addMessage`, a throwing `prepareTransaction` call
excludes any `signTransaction` and any `sendTransaction` call. -/
theorem addMessageTry_prepare_failure_stops {W : Type} (env : Env W) (wa : JsVal) (m : String)
    (st : State) (w : W) (tx : Transaction)
    (hfail : Event.call (.prepareTransaction tx) false ∈ (addMessageTry env wa m st w).trace) :
    (∀ xdr pp ok, Event.call (.signTransaction xdr pp) ok ∉ (addMessageTry env wa m st w).trace) ∧
      ∀ tx2 ok, Event.call (.sendTransaction tx2) ok ∉ (addMessageTry env wa m st w).trace := by
  revert hfail
  unfold addMessageTry
  dsimp only
  repeat' split
  all_goals simp

/-- In the `try` block of `addMessage`, the envelope handed to
`sendTransaction` is the one `fromXDR` parsed from a reply that
`signTransaction` returned for a prepared envelope. -/
theorem addMessageTry_send_requires_signed {W : Type} (env : Env W) (wa : JsVal) (m : String)
    (st : State) (w : W) (stx : Transaction) (ok : Bool)
    (h : Event.call (.sendTransaction stx) ok ∈ (addMessageTry env wa m st w).trace) :
    ∃ prepared reply w2 w3,
      env.signTransaction (env.toXDR prepared) (networkPassphrase env) w2 = (.ok reply, w3) ∧
        env.fromXDR reply (networkPassphrase env) = .ok stx := by
  revert h
  unfold addMessageTry
  dsimp only
  repeat' split
  all_goals simp
  all_goals
    rintro rfl -
    exact ⟨_, _, ⟨_, _, by assumption⟩, by assumption⟩

/-- Claim C1. In a run of `addMessage` that passes its guard and whose
`signTransaction` call throws, no `sendTransaction` call is issued, whatever
`getAccount` and `prepareTransaction` returned. -/
theorem addMessage_sign_failure_no_send {W : Type} (env : Env W) (st : State) (w : W)
    (xdr pp : String) (hw : truthy st.walletAddress = true) (hm : st.message ≠ "")
    (hfail : Event.call (.signTransaction xdr pp) false ∈ (addMessage env st w).trace) :
    ∀ tx ok, Event.call (.sendTransaction tx) ok ∉ (addMessage env st w).trace := by
  intro tx ok
  rw [addMessage_call_mem env st w hw hm] at hfail ⊢
  exact addMessageTry_sign_failure_no_send env _ _ _ w xdr pp hfail tx ok

/-- Witness for C1: the user rejects the signature request of a ready
session. -/
theorem addMessage_sign_failure_no_send_witness :
    Event.call (.signTransaction alice "Test SDF Network ; September 2015") false ∈
        (addMessage envSignRejected stReady 0).trace ∧
      ∀ tx ok, Event.call (.sendTransaction tx) ok ∉ (addMessage envSignRejected stReady 0).trace :=
  ⟨by decide, addMessage_sign_failure_no_send envSignRejected stReady 0 alice
    "Test SDF Network ; September 2015" (by decide) (by decide) (by decide)⟩

/-- Claim C2. In a run of `addMessage` that passes its guard and whose
`prepareTransaction` call throws, neither `signTransaction` nor
`sendTransaction` is called. -/
theorem addMessage_prepare_failure_stops {W : Type} (env : Env W) (st : State) (w : W)
    (tx : Transaction) (hw : truthy st.walletAddress = true) (hm : st.message ≠ "")
    (hfail : Event.call (.prepareTransaction tx) false ∈ (addMessage env st w).trace) :
    (∀ xdr pp ok, Event.call (.signTransaction xdr pp) ok ∉ (addMessage env st w).trace) ∧
      ∀ tx2 ok, Event.call (.sendTransaction tx2) ok ∉ (addMessage env st w).trace := by
  rw [addMessage_call_mem env st w hw hm] at hfail
  have key := addMessageTry_prepare_failure_stops env _ _ _ w tx hfail
  refine ⟨fun xdr pp ok => ?_, fun tx2 ok => ?_⟩
  · rw [addMessage_call_mem env st w hw hm]
    exact key.1 xdr pp ok
  · rw [addMessage_call_mem env st w hw hm]
    exact key.2 tx2 ok

/-- Witness for C2: the simulation of the draft of a ready session reverts. -/
theorem addMessage_prepare_failure_stops_witness :
    Event.call (.prepareTransaction sampleAddTx) false ∈
        (addMessage envPrepareReverts stReady 0).trace ∧
      ((∀ xdr pp ok, Event.call (.signTransaction xdr pp) ok ∉
          (addMessage envPrepareReverts stReady 0).trace) ∧
        ∀ tx2 ok, Event.call (.sendTransaction tx2) ok ∉
          (addMessage envPrepareReverts stReady 0).trace) :=
  ⟨by decide, addMessage_prepare_failure_stops envPrepareReverts stReady 0 sampleAddTx
    (by decide) (by decide) (by decide)⟩

/-! ## Write path: the loading flag -/

/-- The `try` block of `addMessage` never calls `setLoading`. -/
theorem addMessageTry_no_setLoading {W : Type} (env : Env W) (wa : JsVal) (m : String)
    (st : State) (w : W) (b : Bool) :
    Event.setLoading b ∉ (addMessageTry env wa m st w).trace := by
  unfold addMessageTry
  dsimp only
  repeat' split
  all_goals simp

/-- The read path after its first suspension never rejects and never
touches `loading`. -/
theorem loadMessagesResume_quiet {W : Type} (env : Env W) (st : State)
    (r : Except Err Account) (w : W) :
    (loadMessagesResume env st r w).escaped = none ∧
      (loadMessagesResume env st r w).state.loading = st.loading ∧
      (loadMessagesResume env st r w).state.walletAddress = st.walletAddress ∧
      (loadMessagesResume env st r w).state.message = st.message := by
  unfold loadMessagesResume loadMessagesTry
  dsimp only
  repeat' split
  all_goals simp_all

/-- The `try` block of `addMessage` leaves `loading` as it found it: the flag
set by `setLoading(true)` stays up until the `finally` clause. -/
theorem addMessageTry_keeps_loading {W : Type} (env : Env W) (wa : JsVal) (m : String)
    (st : State) (w : W) :
    (addMessageTry env wa m st w).state.loading = st.loading := by
  unfold addMessageTry
  dsimp only
  repeat' split
  all_goals simp

/-- Claim C3. In every run of `addMessage` that passes its guard, whichever
step fails or none: no exception escapes, the first event is
`setLoading(true)` (so it precedes every external call), the last event is
`setLoading(false)`, no other write to `loading` happens in between, and
`loading` is false when the run ends, also once the read path it started has
finished. -/
theorem addMessage_loading_cycle {W : Type} (env : Env W) (st : State) (w : W)
    (hw : truthy st.walletAddress = true) (hm : st.message ≠ "") :
    (addMessage env st w).escaped = none ∧
      (∃ mid, (addMessage env st w).trace =
          Event.setLoading true :: (mid ++ [Event.setLoading false]) ∧
        ∀ b, Event.setLoading b ∉ mid) ∧
      (addMessage env st w).state.loading = false ∧
      (settle env (addMessage env st w)).escaped = none ∧
      (settle env (addMessage env st w)).state.loading = false := by
  refine ⟨by simp [addMessage, hw, hm], ?_, by simp [addMessage, hw, hm], ?_, ?_⟩
  · refine ⟨_, by rw [addMessage_trace env st w hw hm, List.append_assoc], ?_⟩
    intro b hb
    rcases List.mem_append.1 hb with h | h
    · exact addMessageTry_no_setLoading env _ _ _ w b h
    · cases hesc : (addMessageTry env st.walletAddress st.message
          { st with loading := true } w).escaped <;> simp [hesc] at h
  · unfold settle
    split
    · simp [addMessage, hw, hm]
    · simp [addMessage, hw, hm]
  · unfold settle
    split
    · simp [addMessage, hw, hm]
    · rw [(loadMessagesResume_quiet env _ _ _).2.1]
      simp [addMessage, hw, hm]

/-- Witness for C3: a ready session whose signature request is rejected. -/
theorem addMessage_loading_cycle_witness :
    (addMessage envSignRejected stReady 0).escaped = none ∧
      (∃ mid, (addMessage envSignRejected stReady 0).trace =
          Event.setLoading true :: (mid ++ [Event.setLoading false]) ∧
        ∀ b, Event.setLoading b ∉ mid) ∧
      (addMessage envSignRejected stReady 0).state.loading = false ∧
      (settle envSignRejected (addMessage envSignRejected stReady 0)).escaped = none ∧
      (settle envSignRejected (addMessage envSignRejected stReady 0)).state.loading = false :=
  addMessage_loading_cycle envSignRejected stReady 0 (by decide) (by decide)

/-! ## Write path: order of the external calls -/

/-- After its first suspension the read path issues no external call other
than the simulation. -/
theorem loadMessagesResume_calls {W : Type} (env : Env W) (st : State)
    (r : Except Err Account) (w : W) (c : Call) (ok : Bool)
    (h : Event.call c ok ∈ (loadMessagesResume env st r w).trace) :
    ∃ rtx, c = .simulateTransaction rtx := by
  revert h
  unfold loadMessagesResume loadMessagesTry
  dsimp only
  repeat' split
  all_goals simp_all

/-- Claim C8. In a run of `addMessage` that passes its guard and in which
every step succeeds, the events are, in this order and once each:
`setLoading(true)`, `getAccount(walletAddress)`, `prepareTransaction` on the
envelope built from that account with the single operation
`add_message(author, text)`, `signTransaction` on the prepared envelope's XDR
with the network passphrase, `sendTransaction` on the envelope parsed from the
signer's reply, then `setMessage("")`, the start of `loadMessages`
(`getAccount(dummy)`) and `setLoading(false)`; the read path then finishes
without any further write-path call. -/
theorem addMessage_success_order {W : Type} (env : Env W) (st : State) (w w1 w2 w3 w4 : W)
    (account : Account) (author text : ScVal) (tx prepared signedTx : Transaction)
    (signedXDR : JsVal) (res : SubmissionResult)
    (hw : truthy st.walletAddress = true) (hm : st.message ≠ "")
    (h1 : env.getAccount st.walletAddress w = (.ok account, w1))
    (h2 : env.nativeToScVal st.walletAddress .address = .ok author)
    (h3 : env.nativeToScVal (.prim (.str st.message)) .string = .ok text)
    (h4 : env.build
        { source := account, fee := env.BASE_FEE, networkPassphrase := networkPassphrase env,
          operations :=
            [{ contractId := CONTRACT_ID, function := "add_message", args := [author, text] }],
          timeout := some 180 } = .ok tx)
    (h5 : env.prepareTransaction tx w1 = (.ok prepared, w2))
    (h6 : env.signTransaction (env.toXDR prepared) (networkPassphrase env) w2 =
        (.ok signedXDR, w3))
    (h7 : env.fromXDR signedXDR (networkPassphrase env) = .ok signedTx)
    (h8 : env.sendTransaction signedTx w3 = (.ok res, w4)) :
    (addMessage env st w).trace =
        [.setLoading true,
         .call (.getAccount st.walletAddress) true,
         .call (.prepareTransaction tx) true,
         .call (.signTransaction (env.toXDR prepared) (networkPassphrase env)) true,
         .call (.sendTransaction signedTx) true,
         .setMessage "",
         .call (.getAccount (.prim (.str dummy)))
           (returned (env.getAccount (.prim (.str dummy)) w4).1),
         .setLoading false] ∧
      (addMessage env st w).state = { st with message := "", loading := false } ∧
      (addMessage env st w).pendingRead = some (env.getAccount (.prim (.str dummy)) w4).1 ∧
      (∃ rest, (settle env (addMessage env st w)).trace = (addMessage env st w).trace ++ rest ∧
        ∀ c ok, Event.call c ok ∈ rest → ∃ rtx, c = .simulateTransaction rtx) := by
  have hrun : addMessageTry env st.walletAddress st.message { st with loading := true } w =
      { state := { st with message := "", loading := true },
        world := (env.getAccount (.prim (.str dummy)) w4).2,
        trace := [.call (.getAccount st.walletAddress) true,
                  .call (.prepareTransaction tx) true,
                  .call (.signTransaction (env.toXDR prepared) (networkPassphrase env)) true,
                  .call (.sendTransaction signedTx) true,
                  .setMessage "",
                  .call (.getAccount (.prim (.str dummy)))
                    (returned (env.getAccount (.prim (.str dummy)) w4).1)],
        escaped := none,
        pendingRead := some (env.getAccount (.prim (.str dummy)) w4).1 } := by
    simp [addMessageTry, h1, h2, h3, h4, h5, h6, h7, h8]
  have hp : (addMessage env st w).pendingRead =
      some (env.getAccount (.prim (.str dummy)) w4).1 := by
    simp [addMessage, hw, hm, hrun]
  refine ⟨by simp [addMessage, hw, hm, hrun], by simp [addMessage, hw, hm, hrun], hp, ?_⟩
  refine ⟨(loadMessagesResume env (addMessage env st w).state
    (env.getAccount (.prim (.str dummy)) w4).1 (addMessage env st w).world).trace, ?_, ?_⟩
  · simp [settle, hp]
  · intro c ok hc
    exact loadMessagesResume_calls env _ _ _ c ok hc

/-- Witness for C8: a ready session against an environment in which every
call succeeds. -/
theorem addMessage_success_order_witness :
    (addMessage envOk stReady 0).trace =
        [.setLoading true,
         .call (.getAccount (.prim (.str alice))) true,
         .call (.prepareTransaction sampleAddTx) true,
         .call (.signTransaction alice "Test SDF Network ; September 2015") true,
         .call (.sendTransaction
           (sampleSigned (alice ++ ":signed") "Test SDF Network ; September 2015")) true,
         .setMessage "",
         .call (.getAccount (.prim (.str dummy))) true,
         .setLoading false] ∧
      (addMessage envOk stReady 0).state = { stReady with message := "", loading := false } :=
  ⟨(addMessage_success_order envOk stReady 0 1 2 3 4 { accountId := alice, sequence := 7 }
      (.address alice) (.string "hello") sampleAddTx { sampleAddTx with resources := some 1 }
      (sampleSigned (alice ++ ":signed") "Test SDF Network ; September 2015")
      (.prim (.str (alice ++ ":signed"))) { status := "PENDING", hash := "h" }
      (by decide) (by decide) rfl rfl rfl rfl rfl rfl rfl rfl).1,
   (addMessage_success_order envOk stReady 0 1 2 3 4 { accountId := alice, sequence := 7 }
      (.address alice) (.string "hello") sampleAddTx { sampleAddTx with resources := some 1 }
      (sampleSigned (alice ++ ":signed") "Test SDF Network ; September 2015")
      (.prim (.str (alice ++ ":signed"))) { status := "PENDING", hash := "h" }
      (by decide) (by decide) rfl rfl rfl rfl rfl rfl rfl rfl).2.1⟩

/-! ## Read path -/

/-- Counterexample to C5 as stated: against a contract with no stored
message (`getAccount` returns, the simulation returns with no return value)
`loadMessages` ends with one entry shown and a total of 1. -/
theorem loadMessages_empty_contract_counterexample :
    (envOk.getAccount (.prim (.str dummy)) 0).1 = .ok { accountId := dummy, sequence := 7 } ∧
      (envOk.simulateTransaction sampleReadTx 1).1 = .ok { retval := none, resources := 1 } ∧
      (loadMessages envOk State.init 0).trace =
        [.call (.getAccount (.prim (.str dummy))) true,
         .call (.simulateTransaction sampleReadTx) true,
         .setMessages demoMessages, .setTotalMessages 1] ∧
      ¬ ((loadMessages envOk State.init 0).state.messages = [] ∧
          (loadMessages envOk State.init 0).state.totalMessages = 0) := by
  refine ⟨rfl, rfl, by decide, by decide⟩

/-- Claim C5, amended. When `getAccount`, the envelope construction and
`simulateTransaction` all succeed, whatever the simulation returned (an empty
list, no value, or entries), `loadMessages` raises no error and ends with
`messages` equal to the fixed one-entry demo list and `totalMessages` equal
to 1, every other state field unchanged. -/
theorem loadMessages_success_demo {W : Type} (env : Env W) (st : State) (w w1 w2 : W)
    (account : Account) (tx : Transaction) (sim : SimulationResult)
    (h1 : env.getAccount (.prim (.str dummy)) w = (.ok account, w1))
    (h2 : env.build
        { source := account, fee := env.BASE_FEE, networkPassphrase := networkPassphrase env,
          operations := [{ contractId := CONTRACT_ID, function := "get_messages", args := [] }],
          timeout := some 30 } = .ok tx)
    (h3 : env.simulateTransaction tx w1 = (.ok sim, w2)) :
    (loadMessages env st w).escaped = none ∧
      (loadMessages env st w).state = { st with messages := demoMessages, totalMessages := 1 } ∧
      (loadMessages env st w).state.messages.length = 1 := by
  simp [loadMessages, loadMessagesResume, loadMessagesTry, h1, h2, h3, demoMessages]

/-- Witness for the amended C5: the simulation returns an explicitly empty
list. -/
theorem loadMessages_success_demo_witness :
    (loadMessages { envOk with
        simulateTransaction := fun _ w => (.ok { retval := some [], resources := 1 }, w + 1) }
      State.init 0).state = { State.init with messages := demoMessages, totalMessages := 1 } :=
  (loadMessages_success_demo
    { envOk with
      simulateTransaction := fun _ w => (.ok { retval := some [], resources := 1 }, w + 1) }
    State.init 0 1 2 { accountId := dummy, sequence := 7 } sampleReadTx
    { retval := some [], resources := 1 } rfl rfl rfl).2.1

/-- Claim C6. If a network call of `loadMessages` throws (`getAccount` or
`simulateTransaction`), `loadMessages` ends without an exception escaping and
leaves the whole state, `messages` and `totalMessages` included, as it was. -/
theorem loadMessages_failure_frame {W : Type} (env : Env W) (st : State) (w : W) (c : Call)
    (hfail : Event.call c false ∈ (loadMessages env st w).trace) :
    (loadMessages env st w).escaped = none ∧ (loadMessages env st w).state = st := by
  revert hfail
  unfold loadMessages loadMessagesResume loadMessagesTry
  dsimp only
  repeat' split
  all_goals simp_all [returned]

/-- Witness for C6: the simulation call fails while an earlier entry is on
display. -/
theorem loadMessages_failure_frame_witness :
    Event.call (.simulateTransaction sampleReadTx) false ∈
        (loadMessages envSimulateFails stShown 0).trace ∧
      (loadMessages envSimulateFails stShown 0).escaped = none ∧
      (loadMessages envSimulateFails stShown 0).state = stShown :=
  ⟨by decide, loadMessages_failure_frame envSimulateFails stShown 0
    (.simulateTransaction sampleReadTx) (by decide)⟩

/-! ## The page steps agree with the actions run alone -/

/-- A click on Add Message on a page with nothing else in flight, resumed to
its end without interruption, is the run of `addMessage`. -/
theorem run_clickAdd_refines {W : Type} (env : Env W) (p : Page W) (ht : p.tasks = [])
    (hl : p.store.loading = false) :
    (run env p [.clickAdd, .resume 0, .resume 0, .resume 0, .resume 0]).store =
        (addMessage env p.store p.world).state ∧
      (run env p [.clickAdd, .resume 0, .resume 0, .resume 0, .resume 0]).world =
        (addMessage env p.store p.world).world ∧
      (run env p [.clickAdd, .resume 0, .resume 0, .resume 0, .resume 0]).trace =
        p.trace ++ (addMessage env p.store p.world).trace ∧
      (run env p [.clickAdd, .resume 0, .resume 0, .resume 0, .resume 0]).tasks =
        (match (addMessage env p.store p.world).pendingRead with
          | some r => [.readAccount r]
          | none => []) ∧
      (run env p [.clickAdd, .resume 0, .resume 0, .resume 0, .resume 0]).rejections =
        p.rejections := by
  rcases p with ⟨st, w, tasks, tr, rej⟩
  simp only at ht hl
  subst ht
  simp only [run, List.foldl, step, render, hl, addMessage]
  by_cases hg : (!truthy st.walletAddress || decide (st.message = "")) = true
  · simp [hg]
  · simp only [hg, Bool.false_eq_true, if_false]
    rcases h1 : env.getAccount st.walletAddress w with ⟨_ | account, w1⟩
    · simp [addMessageTry, h1, resumeTask, writeCatch, returned, hl]
    rcases h2 : env.nativeToScVal st.walletAddress .address with _ | author
    · simp [addMessageTry, h1, h2, resumeTask, writeCatch, returned, hl]
    rcases h3 : env.nativeToScVal (.prim (.str st.message)) .string with _ | text
    · simp [addMessageTry, h1, h2, h3, resumeTask, writeCatch, returned, hl]
    rcases h4 : env.build
        { source := account, fee := env.BASE_FEE, networkPassphrase := networkPassphrase env,
          operations :=
            [{ contractId := CONTRACT_ID, function := "add_message", args := [author, text] }],
          timeout := some 180 } with _ | tx
    · simp [addMessageTry, h1, h2, h3, h4, resumeTask, writeCatch, returned, hl]
    rcases h5 : env.prepareTransaction tx w1 with ⟨_ | prepared, w2⟩
    · simp [addMessageTry, h1, h2, h3, h4, h5, resumeTask, writeCatch, returned, hl]
    rcases h6 : env.signTransaction (env.toXDR prepared) (networkPassphrase env) w2 with
      ⟨_ | signedXDR, w3⟩
    · simp [addMessageTry, h1, h2, h3, h4, h5, h6, resumeTask, writeCatch, returned, hl]
    rcases h7 : env.fromXDR signedXDR (networkPassphrase env) with _ | signedTx
    · simp [addMessageTry, h1, h2, h3, h4, h5, h6, h7, resumeTask, writeCatch, returned, hl]
    rcases h8 : env.sendTransaction signedTx w3 with ⟨_ | res, w4⟩
    · simp [addMessageTry, h1, h2, h3, h4, h5, h6, h7, h8, resumeTask, writeCatch, returned, hl]
    · simp [addMessageTry, h1, h2, h3, h4, h5, h6, h7, h8, resumeTask, writeCatch, returned, hl]

/-- A click on Connect Wallet in a disconnected session with nothing else in
flight, resumed to its end without interruption, is the run of
`connectWallet`; an escaping exception ends up as an unhandled rejection. -/
theorem run_clickConnect_refines {W : Type} (env : Env W) (p : Page W) (ht : p.tasks = [])
    (hd : truthy p.store.walletAddress = false) :
    (run env p [.clickConnect, .resume 0, .resume 0, .resume 0]).store =
        (connectWallet env p.store p.world).state ∧
      (run env p [.clickConnect, .resume 0, .resume 0, .resume 0]).world =
        (connectWallet env p.store p.world).world ∧
      (run env p [.clickConnect, .resume 0, .resume 0, .resume 0]).trace =
        p.trace ++ (connectWallet env p.store p.world).trace ∧
      (run env p [.clickConnect, .resume 0, .resume 0, .resume 0]).tasks = [] ∧
      (run env p [.clickConnect, .resume 0, .resume 0, .resume 0]).rejections =
        p.rejections ++ (connectWallet env p.store p.world).escaped.toList := by
  rcases p with ⟨st, w, tasks, tr, rej⟩
  simp only at ht hd
  subst ht
  rcases h1 : env.isConnected w with ⟨_ | installed, w1⟩
  · simp [run, step, render, hd, connectWallet, h1, resumeTask, reject, returned]
  cases hi : truthy installed
  · simp [run, step, render, hd, connectWallet, h1, resumeTask, reject, returned, hi]
  rcases h2 : env.requestAccess w1 with ⟨_ | access, w2⟩
  · simp [run, step, render, hd, connectWallet, h1, resumeTask, reject, returned, hi, h2]
  cases ha : truthy access
  · simp [run, step, render, hd, connectWallet, h1, resumeTask, reject, returned, hi, h2, ha]
  rcases h3 : env.getAddress w2 with ⟨_ | result, w3⟩
  · simp [run, step, render, hd, connectWallet, h1, resumeTask, reject, returned, hi, h2, ha,
      h3]
  rcases h4 : propAddress result with _ | address
  · simp [run, step, render, hd, connectWallet, h1, resumeTask, reject, returned, hi, h2, ha,
      h3, h4]
  · simp [run, step, render, hd, connectWallet, h1, resumeTask, reject, returned, hi, h2, ha,
      h3, h4]

/-- A started `loadMessages()` resumed to its end without interruption is
the run of `loadMessages`. -/
theorem run_startRead_refines {W : Type} (env : Env W) (p : Page W) (ht : p.tasks = []) :
    (run env (startRead env p) [.resume 0, .resume 0]).store =
        (loadMessages env p.store p.world).state ∧
      (run env (startRead env p) [.resume 0, .resume 0]).world =
        (loadMessages env p.store p.world).world ∧
      (run env (startRead env p) [.resume 0, .resume 0]).trace =
        p.trace ++ (loadMessages env p.store p.world).trace ∧
      (run env (startRead env p) [.resume 0, .resume 0]).tasks = [] ∧
      (run env (startRead env p) [.resume 0, .resume 0]).rejections = p.rejections := by
  rcases p with ⟨st, w, tasks, tr, rej⟩
  simp only at ht
  subst ht
  rcases h1 : env.getAccount (.prim (.str dummy)) w with ⟨_ | account, w1⟩
  · simp [run, step, startRead, loadMessages, loadMessagesResume, loadMessagesTry, h1,
      resumeTask, readCatch, returned]
  rcases h2 : env.build
      { source := account, fee := env.BASE_FEE, networkPassphrase := networkPassphrase env,
        operations := [{ contractId := CONTRACT_ID, function := "get_messages", args := [] }],
        timeout := some 30 } with _ | tx
  · simp [run, step, startRead, loadMessages, loadMessagesResume, loadMessagesTry, h1,
      resumeTask, readCatch, returned, h2]
  rcases h3 : env.simulateTransaction tx w1 with ⟨_ | sim, w2⟩
  · simp [run, step, startRead, loadMessages, loadMessagesResume, loadMessagesTry, h1,
      resumeTask, readCatch, returned, h2, h3]
  · simp [run, step, startRead, loadMessages, loadMessagesResume, loadMessagesTry, h1,
      resumeTask, readCatch, returned, h2, h3]

/-! ## The page: one write at a time -/

/-- Taking the task at index `i` off the list lowers the count of write
tasks by one exactly when that task is a write. -/
theorem countP_isWrite_eraseIdx (l : List Task) (i : Nat) (t : Task) (h : l[i]? = some t) :
    (l.eraseIdx i).countP Task.isWrite + (if t.isWrite then 1 else 0) =
      l.countP Task.isWrite := by
  induction l generalizing i with
  | nil => simp at h
  | cons a l ih =>
    cases i with
    | zero =>
      simp at h
      subst h
      cases hw : a.isWrite <;> simp [List.countP_cons, hw]
    | succ i =>
      simp at h
      have := ih i h
      simp only [List.eraseIdx_cons_succ, List.countP_cons]
      omega

/-- Resuming a task that is not a write neither changes `loading` nor the
number of writes in flight. -/
theorem resumeTask_other {W : Type} (env : Env W) (p : Page W) (t : Task)
    (ht : t.isWrite = false) :
    writesInFlight (resumeTask env p t) = writesInFlight p ∧
      (resumeTask env p t).store.loading = p.store.loading := by
  cases t <;> simp [Task.isWrite] at ht <;>
    simp only [resumeTask, startRead, readCatch, reject, writesInFlight] <;>
    (repeat' split) <;> simp [List.countP_append, List.countP_cons, Task.isWrite]

/-- Resuming the only write in flight either suspends it again with `loading`
still up, or ends it with `loading` down. -/
theorem resumeTask_write {W : Type} (env : Env W) (p : Page W) (t : Task)
    (ht : t.isWrite = true) (h0 : writesInFlight p = 0) (hl : p.store.loading = true) :
    WriteInv (resumeTask env p t) := by
  unfold writesInFlight at h0
  cases t <;> simp [Task.isWrite] at ht <;>
    simp only [resumeTask, writeCatch, WriteInv, writesInFlight] <;>
    (repeat' split) <;>
    simp [List.countP_append, List.countP_cons, Task.isWrite, h0, hl]

/-- Every step of the page keeps `WriteInv`. -/
theorem step_writeInv {W : Type} (env : Env W) (p : Page W) (a : Action) (h : WriteInv p) :
    WriteInv (step env p a) := by
  cases a with
  | type s => exact h
  | clickConnect =>
    simp only [step]
    split
    · simpa [WriteInv, writesInFlight, List.countP_append, List.countP_cons, Task.isWrite]
        using h
    · exact h
  | clickAdd =>
    simp only [step, render]
    split
    · exact h
    · rename_i hl
      split
      · exact h
      · rcases h with ⟨h0, _⟩ | ⟨_, h1⟩
        · right
          unfold writesInFlight at h0
          simp [writesInFlight, List.countP_append, List.countP_cons, Task.isWrite, h0]
        · exact absurd h1 hl
  | resume i =>
    simp only [step]
    split
    · exact h
    · rename_i t ht
      have hc := countP_isWrite_eraseIdx p.tasks i t ht
      cases hw : t.isWrite
      · have ho := resumeTask_other env { p with tasks := p.tasks.eraseIdx i } t hw
        simp only [hw, Bool.false_eq_true, if_false, Nat.add_zero] at hc
        simp only [WriteInv, ho.1, ho.2]
        simpa [WriteInv, writesInFlight, hc] using h
      · simp only [hw, if_true] at hc
        rcases h with ⟨h0, _⟩ | ⟨h1, hl⟩
        · unfold writesInFlight at h0
          omega
        · unfold writesInFlight at h1
          exact resumeTask_write env _ t hw (by simp only [writesInFlight]; omega) hl

/-- The freshly mounted page has no write in flight and `loading` down. -/
theorem start_writeInv {W : Type} (env : Env W) (w : W) : WriteInv (start env w) := by
  left
  simp [start, writesInFlight, Task.isWrite, State.init]

/-- Every page reachable from the mounted one satisfies `WriteInv`. -/
theorem run_writeInv {W : Type} (env : Env W) (p : Page W) (acts : List Action)
    (h : WriteInv p) : WriteInv (run env p acts) := by
  induction acts generalizing p with
  | nil => exact h
  | cons a acts ih => exact ih (step env p a) (step_writeInv env p a h)

/-- Claim C4. On every page reachable from the mounted one, by any typing,
clicking and resuming of suspended actions: when a write is pending (`loading`
is true) exactly one `addMessage` is in flight, the one that raised the flag,
and triggering Add Message again changes nothing: no second `addMessage`
starts, no event is added, so no second `signTransaction` call is issued. -/
theorem page_pending_click_no_second_sign {W : Type} (env : Env W) (w : W)
    (acts : List Action) (hp : (run env (start env w) acts).store.loading = true) :
    writesInFlight (run env (start env w) acts) = 1 ∧
      step env (run env (start env w) acts) .clickAdd = run env (start env w) acts ∧
      (step env (run env (start env w) acts) .clickAdd).trace =
        (run env (start env w) acts).trace ∧
      (∀ xdr pp ok, Event.call (.signTransaction xdr pp) ok ∈
          (step env (run env (start env w) acts) .clickAdd).trace →
        Event.call (.signTransaction xdr pp) ok ∈ (run env (start env w) acts).trace) ∧
      (run env (start env w) acts).tasks.countP
        (fun t => match t with | .writeSign _ => true | _ => false) ≤ 1 := by
  have hinv := run_writeInv env (start env w) acts (start_writeInv env w)
  have hstep : step env (run env (start env w) acts) .clickAdd = run env (start env w) acts := by
    simp [step, render, hp]
  have h1 : writesInFlight (run env (start env w) acts) = 1 := by
    rcases hinv with ⟨_, hl⟩ | ⟨h1, _⟩
    · rw [hp] at hl
      cases hl
    · exact h1
  refine ⟨h1, hstep, by rw [hstep], ?_, ?_⟩
  · intro xdr pp ok h
    rwa [hstep] at h
  · unfold writesInFlight at h1
    rw [← h1]
    apply List.countP_mono_left
    intro t _ ht
    cases t <;> simp_all [Task.isWrite]

/-- Witness for C4: after connecting and typing a draft, one click on Add
Message is in flight with its `getAccount` call issued. -/
theorem page_pending_click_no_second_sign_witness :
    (run envOk (start envOk 0) actsWriteStarted).store.loading = true ∧
      writesInFlight (run envOk (start envOk 0) actsWriteStarted) = 1 ∧
      (step envOk (run envOk (start envOk 0) actsWriteStarted) .clickAdd).trace =
        (run envOk (start envOk 0) actsWriteStarted).trace :=
  ⟨by decide,
   (page_pending_click_no_second_sign envOk 0 actsWriteStarted (by decide)).1,
   (page_pending_click_no_second_sign envOk 0 actsWriteStarted (by decide)).2.2.1⟩

/-! ## Connecting -/

/-- When the permission request comes back falsy `connectWallet` returns
silently: the explicit `if (!access) return;` emits no notice. -/
theorem connectWallet_declined_silent :
    accessFalsy envAccessDeclined 0 ∧
      (connectWallet envAccessDeclined State.init 0).trace =
        [.call .isConnected true, .call .requestAccess true] ∧
      ¬ ∃ msg, Event.alert msg ∈ (connectWallet envAccessDeclined State.init 0).trace := by
  refine ⟨⟨.prim (.bool true), 1, .prim (.str ""), 2, rfl, by decide, rfl, by decide⟩,
    by decide, ?_⟩
  rintro ⟨msg, h⟩
  have ht : (connectWallet envAccessDeclined State.init 0).trace =
      [.call .isConnected true, .call .requestAccess true] := by decide
  rw [ht] at h
  simp at h

/-- What `connectWallet` does keep on a failure of the wallet bridge (a call
throws, the presence check returns a falsy value, or the permission request
returns a falsy value): the state is left unchanged. A failure reported as a
falsy value returns without an exception, with the notice in the presence
case only. -/
theorem connectWallet_failure_frame {W : Type} (env : Env W) (st : State) (w : W)
    (hfail : presenceFalsy env w ∨ accessFalsy env w ∨
      ∃ c, Event.call c false ∈ (connectWallet env st w).trace) :
    (connectWallet env st w).state = st ∧
      (presenceFalsy env w ∨ accessFalsy env w → (connectWallet env st w).escaped = none) ∧
      (presenceFalsy env w → (connectWallet env st w).trace =
        [.call .isConnected true, .alert "Install Freighter wallet first"]) ∧
      (accessFalsy env w → (connectWallet env st w).trace =
        [.call .isConnected true, .call .requestAccess true]) := by
  have hA : presenceFalsy env w → connectWallet env st w =
      { state := st, world := (env.isConnected w).2,
        trace := [.call .isConnected true, .alert "Install Freighter wallet first"],
        escaped := none, pendingRead := none } := by
    rintro ⟨v, w1, h1, hv⟩
    simp [connectWallet, h1, hv]
  have hB : accessFalsy env w → ∃ w2, connectWallet env st w =
      { state := st, world := w2,
        trace := [.call .isConnected true, .call .requestAccess true],
        escaped := none, pendingRead := none } := by
    rintro ⟨v, w1, a, w2, h1, hv, h2, ha⟩
    exact ⟨w2, by simp [connectWallet, h1, hv, h2, ha]⟩
  refine ⟨?_, ?_, ?_, ?_⟩
  · rcases hfail with h | h | ⟨c, h⟩
    · rw [hA h]
    · obtain ⟨w2, hr⟩ := hB h
      rw [hr]
    · revert h
      unfold connectWallet
      repeat' split
      all_goals simp
  · rintro (h | h)
    · rw [hA h]
    · obtain ⟨w2, hr⟩ := hB h
      rw [hr]
  · intro h
    rw [hA h]
  · intro h
    obtain ⟨w2, hr⟩ := hB h
    rw [hr]

/-- Evaluation for C9: `connectWallet` has no `try`, unlike `loadMessages`
and `addMessage`. When the presence check, the permission request or the
address retrieval throws, the exception escapes `connectWallet` and no notice
is emitted: the trace holds the calls only, no `alert`. -/
theorem connectWallet_throw_escapes :
    ((connectWallet envBridgeDown State.init 0).escaped = some "Freighter is not reachable" ∧
        (connectWallet envBridgeDown State.init 0).trace = [.call .isConnected false]) ∧
      ((connectWallet envAccessThrows State.init 0).escaped = some "User declined access" ∧
        (connectWallet envAccessThrows State.init 0).trace =
          [.call .isConnected true, .call .requestAccess false]) ∧
      ((connectWallet envAddressThrows State.init 0).escaped = some "Unable to load address" ∧
        (connectWallet envAddressThrows State.init 0).trace =
          [.call .isConnected true, .call .requestAccess true, .call .getAddress false]) ∧
      (run envAccessThrows (start envAccessThrows 0)
          [.clickConnect, .resume 1, .resume 1]).rejections = ["User declined access"] := by
  decide

/-- A throwing call of `connectWallet` always escapes, whatever the
environment: the run ends with `escaped` set and without a notice. -/
theorem connectWallet_call_failure_escapes {W : Type} (env : Env W) (st : State) (w : W)
    (c : Call) (h : Event.call c false ∈ (connectWallet env st w).trace) :
    (connectWallet env st w).escaped ≠ none ∧
      ∀ msg, Event.alert msg ∉ (connectWallet env st w).trace := by
  revert h
  unfold connectWallet
  repeat' split
  all_goals simp

/-! ## The page: connecting twice -/

/-- While the session is connected the Connect Wallet button is not rendered:
a click starts no new `connectWallet`. -/
theorem page_connected_click_idle {W : Type} (env : Env W) (p : Page W)
    (hw : truthy p.store.walletAddress = true) : step env p .clickConnect = p := by
  simp [step, render, hw]

/-- Evaluation for C7: nothing guards a `connectWallet` that is already in
flight. After two clicks on Connect Wallet in a disconnected session, the
first run connects the session (`walletAddress` is `alice`, the button is
gone). If the second run still waits for its presence check, it calls
`requestAccess` in that connected state; if it had already asked, the
permission prompt was issued twice. Either way the second run then overwrites
`walletAddress` with the reply of its own `getAddress`. -/
theorem page_second_connect_run_prompts_again :
    ((run envTwoAccounts (start envTwoAccounts 0) actsFirstConnected).store.walletAddress =
          .prim (.str alice) ∧
        (render (run envTwoAccounts (start envTwoAccounts 0)
          actsFirstConnected).store).connectButton = false ∧
        (step envTwoAccounts (run envTwoAccounts (start envTwoAccounts 0) actsFirstConnected)
            (.resume 1)).trace =
          (run envTwoAccounts (start envTwoAccounts 0) actsFirstConnected).trace ++
            [.call .requestAccess true] ∧
        (run envTwoAccounts (start envTwoAccounts 0)
            (actsFirstConnected ++ [.resume 1, .resume 1, .resume 1])).store.walletAddress =
          .prim (.str "GBOB")) ∧
      ((run envTwoAccounts (start envTwoAccounts 0) actsBothPrompted).store.walletAddress =
          .prim (.str alice) ∧
        (run envTwoAccounts (start envTwoAccounts 0) actsBothPrompted).trace.count
          (.call .requestAccess true) = 2 ∧
        (run envTwoAccounts (start envTwoAccounts 0)
            (actsBothPrompted ++ [.resume 1, .resume 1])).store.walletAddress =
          .prim (.str "GBOB")) := by
  decide

/-- What `connectWallet` stores when every call returns and the reply has an
address: `result.address || result`. -/
theorem connectWallet_stores {W : Type} (env : Env W) (st : State) (w w1 w2 w3 : W)
    (installed access result address : JsVal)
    (h1 : env.isConnected w = (.ok installed, w1)) (hi : truthy installed = true)
    (h2 : env.requestAccess w1 = (.ok access, w2)) (ha : truthy access = true)
    (h3 : env.getAddress w2 = (.ok result, w3)) (h4 : propAddress result = .ok address) :
    (connectWallet env st w).state = { st with walletAddress := jsOr address result } := by
  simp [connectWallet, h1, hi, h2, ha, h3, h4]

/-- Evaluation for C10: when `getAddress` replies with a record whose
`address` is empty, `connectWallet` stores the record itself; the stored value
is not a string, it is truthy, and the page shows the session as connected. -/
theorem connectWallet_empty_address_stores_record :
    (connectWallet envEmptyAddress State.init 0).state.walletAddress =
        .obj [("address", .str ""), ("error", .str "Unable to load address")] ∧
      (∀ s, (connectWallet envEmptyAddress State.init 0).state.walletAddress ≠ .prim (.str s)) ∧
      truthy (connectWallet envEmptyAddress State.init 0).state.walletAddress = true ∧
      (render (connectWallet envEmptyAddress State.init 0).state).connectButton = false := by
  have h : (connectWallet envEmptyAddress State.init 0).state.walletAddress =
      .obj [("address", .str ""), ("error", .str "Unable to load address")] := by decide
  refine ⟨h, ?_, ?_, ?_⟩
  · intro s
    rw [h]
    simp
  · rw [h]
    rfl
  · simp [render, h, truthy]

end Guestbook
